import Mathlib

/-!
Repeater lifecycle controller (src/app/repeater.c)

A shallow embedding of the repeater state machine of the UV-K5 firmware
module `app/repeater.c`, followed by theorems about it.

* The module-level statics become the fields of `State`; the two globals of
  the surrounding application that the module touches are modelled as a field
  (`gRxIdleMode`, written by the module) and as an argument of
  `REPEATER_Process` (`gCurrentFunction`, only read).
* The EEPROM byte at address 0x1F00 is a field of `State`.
* `uint32_t` ticks are natural numbers; the two places where the C code
  computes modulo 2^32 (`now - timer` and `now + interval`) are `sub32` and
  `add32`.
* `SYSTEM_GetSysTick()` is the argument `now` of the operation that reads it.
* Driver calls, register writes and log lines are returned as a list of
  `Effect`, in program order.
-/

namespace Repeater

/-- Enumeration `RepeaterState_t` of repeater.c, lines 17-24. -/
inductive RepeaterState_t
  | REPEATER_STATE_IDLE
  | REPEATER_STATE_STANDBY
  | REPEATER_STATE_WAKE
  | REPEATER_STATE_MORSE
  | REPEATER_STATE_LISTEN
  | REPEATER_STATE_ACTIVE
  deriving DecidableEq, Repr

/-- Modelled from the spec: the enumeration of `gCurrentFunction` lives in
functions.h, which is not among the sources. repeater.c names two of its
enumerators, the live transmit and the live receive session; every other
enumerator is `FUNCTION_OTHER k`. -/
inductive FUNCTION_t
  | FUNCTION_TRANSMIT
  | FUNCTION_RECEIVE
  | FUNCTION_OTHER (k : Nat)
  deriving DecidableEq, Repr

/-- The calls into collaborators made by repeater.c, as observable events.
`DebugPrintf fmt arg` stands for `snprintf(buf, sizeof(buf), fmt, arg)`
followed by `DebugPrint(buf)`; `PCON_Or m` stands for `PCON |= m`. -/
inductive Effect
  | DebugPrint (msg : String)
  | DebugPrintf (fmt : String) (arg : Nat)
  | BK4819_Idle
  | ST7565_Sleep
  | PCON_Or (mask : Nat)
  | RADIO_SetupRegisters (switchToForeground : Bool)
  | EEPROM_WriteBuffer (address : Nat) (byte : Nat)
  | SYSTEM_DelayMs (ms : Nat)
  deriving DecidableEq, Repr

/-- The statics of repeater.c (lines 26-31), the application flag
`gRxIdleMode` and the EEPROM byte at 0x1F00. -/
structure State where
  gRepeaterState : RepeaterState_t
  gNextWakeTime : Nat
  gStateTimer : Nat
  gWatchdogTimer : Nat
  gPermanentStandby : Bool
  gTapCommand : Nat
  gRxIdleMode : Bool
  eeprom1F00 : Nat
  deriving DecidableEq, Repr

open RepeaterState_t FUNCTION_t

/-- Subtraction of `uint32_t` values: `a - b` modulo 2^32. -/
def sub32 (a b : Nat) : Nat :=
  (a + (4294967296 - b % 4294967296)) % 4294967296

/-- Addition of `uint32_t` values: `a + b` modulo 2^32. -/
def add32 (a b : Nat) : Nat :=
  (a + b) % 4294967296

/-- The constant `(4 * 60 * 60 * 100)`: four hours in 10 ms ticks. -/
def WAKE_INTERVAL : Nat := 4 * 60 * 60 * 100

/-- The address `0x1F00` of the persisted flag. -/
def STANDBY_ADDR : Nat := 0x1F00

/-- The statement `PCON |= (1 << 1)`. -/
def PCON_STOP : Effect := Effect.PCON_Or (1 <<< 1)

/-- The values of the statics before any function of the module has run
(their initialisers), for a given application flag and EEPROM byte. -/
def bootState (rxIdle : Bool) (byte : Nat) : State :=
  { gRepeaterState := REPEATER_STATE_IDLE
    gNextWakeTime := 0
    gStateTimer := 0
    gWatchdogTimer := 0
    gPermanentStandby := false
    gTapCommand := 0
    gRxIdleMode := rxIdle
    eeprom1F00 := byte }

/-- Function `REPEATER_Init`, lines 33-47. -/
def REPEATER_Init (now : Nat) (s : State) : State × List Effect :=
  let data := s.eeprom1F00
  let standby : Bool := (data &&& 0x01) != 0
  let s1 : State :=
    { s with
      gPermanentStandby := standby
      gRepeaterState := if standby then REPEATER_STATE_STANDBY else REPEATER_STATE_IDLE }
  let e : List Effect :=
    if standby then
      [Effect.DebugPrint "Permanent Standby: Enabled", Effect.BK4819_Idle,
        Effect.ST7565_Sleep, PCON_STOP]
    else
      [Effect.DebugPrint "Permanent Standby: Disabled"]
  ({ s1 with gNextWakeTime := add32 now WAKE_INTERVAL }, e)

/-- Function `REPEATER_SetPermanentStandby`, lines 49-64. -/
def REPEATER_SetPermanentStandby (enable : Bool) (s : State) : State × List Effect :=
  let data : Nat := if enable then 0x01 else 0x00
  let s1 : State := { s with gPermanentStandby := enable, eeprom1F00 := data }
  let w : Effect := Effect.EEPROM_WriteBuffer STANDBY_ADDR data
  if enable = true ∧ s1.gRepeaterState ≠ REPEATER_STATE_STANDBY then
    ({ s1 with gRepeaterState := REPEATER_STATE_STANDBY },
      [w, Effect.DebugPrint "Entering Standby", Effect.BK4819_Idle,
        Effect.ST7565_Sleep, PCON_STOP])
  else if enable = false ∧ s1.gRepeaterState = REPEATER_STATE_STANDBY then
    ({ s1 with gRepeaterState := REPEATER_STATE_IDLE },
      [w, Effect.DebugPrint "Exiting Standby", Effect.RADIO_SetupRegisters true])
  else
    (s1, [w])

/-- Function `REPEATER_GetPermanentStandby`, lines 66-68. -/
def REPEATER_GetPermanentStandby (s : State) : Bool :=
  s.gPermanentStandby

/-- Function `TransmitMorseID`, lines 70-74: a log line and a blocking delay. -/
def TransmitMorseID : List Effect :=
  [Effect.DebugPrint "Transmitting Morse ID", Effect.SYSTEM_DelayMs 10000]

/-- Function `SwitchFrequency`, lines 76-80. -/
def SwitchFrequency : List Effect :=
  [Effect.DebugPrint "Switching Frequency", Effect.RADIO_SetupRegisters true]

/-- Function `REPEATER_ProcessTapCommand`, lines 82-96. -/
def REPEATER_ProcessTapCommand (taps : Nat) (s : State) : State × List Effect :=
  if 3 ≤ taps ∧ taps ≤ 5 then
    ({ s with gTapCommand := taps },
      Effect.DebugPrintf "Tap command: %d" taps ::
        (match taps with
          | 3 => [Effect.DebugPrint "ESP32: Command 3"]
          | 4 => [Effect.DebugPrint "ESP32: Command 4"]
          | 5 => [Effect.DebugPrint "ESP32: Command 5"]
          | _ => []))
  else
    ({ s with gTapCommand := 0 }, [])

/-- Function `REPEATER_WakeFromStandby`, lines 98-107. -/
def REPEATER_WakeFromStandby (now : Nat) (s : State) : State × List Effect :=
  if s.gRepeaterState = REPEATER_STATE_STANDBY then
    ({ s with
        gRepeaterState := REPEATER_STATE_WAKE
        gStateTimer := now
        gWatchdogTimer := now
        gRxIdleMode := false },
      [Effect.DebugPrint "Waking from Standby", Effect.RADIO_SetupRegisters true])
  else
    (s, [])

/-- Function `EnterStandby`, lines 109-115. -/
def EnterStandby (s : State) : State × List Effect :=
  ({ s with gRepeaterState := REPEATER_STATE_STANDBY },
    [Effect.DebugPrint "Entering Standby", Effect.BK4819_Idle, Effect.ST7565_Sleep, PCON_STOP])

/-- The guard of `REPEATER_Process`, line 118: a live TX or RX session. -/
def liveSession (f : FUNCTION_t) : Bool :=
  f = FUNCTION_TRANSMIT || f = FUNCTION_RECEIVE

/-- The watchdog condition of line 126. -/
def watchdogExpired (now : Nat) (s : State) : Prop :=
  s.gRepeaterState ≠ REPEATER_STATE_STANDBY ∧ sub32 now s.gWatchdogTimer > 500

instance (now : Nat) (s : State) : Decidable (watchdogExpired now s) :=
  inferInstanceAs
    (Decidable (s.gRepeaterState ≠ REPEATER_STATE_STANDBY ∧ sub32 now s.gWatchdogTimer > 500))

/-- The state a watchdog timeout or a completed cycle goes back to:
`gPermanentStandby ? REPEATER_STATE_STANDBY : REPEATER_STATE_IDLE`. -/
def restState (s : State) : RepeaterState_t :=
  if s.gPermanentStandby then REPEATER_STATE_STANDBY else REPEATER_STATE_IDLE

/-- The watchdog branch of `REPEATER_Process`, lines 127-134. -/
def watchdogBranch (now : Nat) (s : State) : State × List Effect :=
  let s1 : State :=
    { s with gRepeaterState := restState s, gStateTimer := now, gWatchdogTimer := now }
  if s1.gPermanentStandby then
    let r := EnterStandby s1
    (r.1, Effect.DebugPrint "Watchdog timeout" :: r.2)
  else
    (s1, [Effect.DebugPrint "Watchdog timeout"])

/-- The `switch` of `REPEATER_Process`, lines 137-199. -/
def switchBranch (now : Nat) (s : State) : State × List Effect :=
  match s.gRepeaterState with
  | REPEATER_STATE_IDLE =>
    if s.gPermanentStandby then
      EnterStandby s
    else if now ≥ s.gNextWakeTime then
      ({ s with
          gRepeaterState := REPEATER_STATE_WAKE
          gStateTimer := now
          gWatchdogTimer := now
          gRxIdleMode := false },
        [Effect.DebugPrint "Scheduled wake", Effect.RADIO_SetupRegisters true])
    else
      (s, [])
  | REPEATER_STATE_STANDBY =>
    if now ≥ s.gNextWakeTime then
      ({ s with
          gRepeaterState := REPEATER_STATE_WAKE
          gStateTimer := now
          gWatchdogTimer := now
          gRxIdleMode := false },
        [Effect.DebugPrint "Scheduled wake from Standby", Effect.RADIO_SetupRegisters true])
    else
      (s, [])
  | REPEATER_STATE_WAKE =>
    if sub32 now s.gStateTimer ≥ 100 then
      ({ s with
          gRepeaterState := REPEATER_STATE_MORSE
          gStateTimer := now
          gWatchdogTimer := now },
        [Effect.DebugPrint "State: Morse"])
    else
      (s, [])
  | REPEATER_STATE_MORSE =>
    ({ s with
        gRepeaterState := REPEATER_STATE_LISTEN
        gStateTimer := now
        gWatchdogTimer := now },
      TransmitMorseID ++
        [Effect.DebugPrint "State: Listen", Effect.RADIO_SetupRegisters true])
  | REPEATER_STATE_LISTEN =>
    if sub32 now s.gStateTimer ≥ 5000 then
      let s1 : State :=
        { s with
          gNextWakeTime := add32 now WAKE_INTERVAL
          gRepeaterState := restState s
          gStateTimer := now
          gWatchdogTimer := now }
      let e1 : Effect := Effect.DebugPrintf "Next wake: %lu" s1.gNextWakeTime
      if s1.gPermanentStandby then
        let r := EnterStandby s1
        (r.1, e1 :: r.2)
      else
        (s1, [e1])
    else
      (s, [])
  | REPEATER_STATE_ACTIVE =>
    ({ s with gWatchdogTimer := now }, [])

/-- Function `REPEATER_Process`, lines 117-200. `f` is the value of
`gCurrentFunction` and `now` the tick read at line 122. -/
def REPEATER_Process (f : FUNCTION_t) (now : Nat) (s : State) : State × List Effect :=
  if liveSession f then
    (s, [])
  else if watchdogExpired now s then
    watchdogBranch now s
  else
    switchBranch now s

/-- A call of one of the public operations of repeater.h, with the inputs it
reads from its environment. -/
inductive Op
  | Init (now : Nat)
  | SetPermanentStandby (enable : Bool)
  | ProcessTapCommand (taps : Nat)
  | WakeFromStandby (now : Nat)
  | Process (f : FUNCTION_t) (now : Nat)
  deriving DecidableEq, Repr

/-- One call: the state after it and the effects it issued. -/
def step (o : Op) (s : State) : State × List Effect :=
  match o with
  | Op.Init now => REPEATER_Init now s
  | Op.SetPermanentStandby enable => REPEATER_SetPermanentStandby enable s
  | Op.ProcessTapCommand taps => REPEATER_ProcessTapCommand taps s
  | Op.WakeFromStandby now => REPEATER_WakeFromStandby now s
  | Op.Process f now => REPEATER_Process f now s

/-- The state after a sequence of calls, first call first. -/
def run (ops : List Op) (s : State) : State :=
  ops.foldl (fun acc o => (step o acc).1) s

/-- The state after `REPEATER_Init` at tick `t0` on a device whose statics hold
their initialisers, followed by the calls `ops`. -/
def afterInit (rxIdle : Bool) (byte t0 : Nat) (ops : List Op) : State :=
  run ops (REPEATER_Init t0 (bootState rxIdle byte)).1

/-- A device in `Wake` whose timers were last refreshed at tick 0. -/
def sampleWake : State :=
  { gRepeaterState := REPEATER_STATE_WAKE
    gNextWakeTime := 1440000
    gStateTimer := 0
    gWatchdogTimer := 0
    gPermanentStandby := false
    gTapCommand := 0
    gRxIdleMode := false
    eeprom1F00 := 0 }

/-- A device in `Listen` that entered the state at tick 1000 and whose
watchdog was refreshed at tick 5900. -/
def sampleListen : State :=
  { gRepeaterState := REPEATER_STATE_LISTEN
    gNextWakeTime := 1440000
    gStateTimer := 1000
    gWatchdogTimer := 5900
    gPermanentStandby := false
    gTapCommand := 0
    gRxIdleMode := false
    eeprom1F00 := 0 }

/-- A device in `Idle` with the flag clear, its wake due at tick 1440000 and
its watchdog refreshed at tick 1439900. -/
def sampleIdleDue : State :=
  { gRepeaterState := REPEATER_STATE_IDLE
    gNextWakeTime := 1440000
    gStateTimer := 1439900
    gWatchdogTimer := 1439900
    gPermanentStandby := false
    gTapCommand := 0
    gRxIdleMode := true
    eeprom1F00 := 0 }

/-- A device in `Idle` with the flag set, its wake due since tick 0. -/
def sampleIdleFlagged : State :=
  { gRepeaterState := REPEATER_STATE_IDLE
    gNextWakeTime := 0
    gStateTimer := 0
    gWatchdogTimer := 0
    gPermanentStandby := true
    gTapCommand := 0
    gRxIdleMode := false
    eeprom1F00 := 1 }

/-- A device in `Morse` that entered the state at tick 1440100. -/
def sampleMorse : State :=
  { gRepeaterState := REPEATER_STATE_MORSE
    gNextWakeTime := 1440000
    gStateTimer := 1440100
    gWatchdogTimer := 1440100
    gPermanentStandby := false
    gTapCommand := 0
    gRxIdleMode := false
    eeprom1F00 := 0 }

/-- A device in `Active` whose watchdog was refreshed at tick 0. -/
def sampleActive : State :=
  { gRepeaterState := REPEATER_STATE_ACTIVE
    gNextWakeTime := 1440000
    gStateTimer := 0
    gWatchdogTimer := 0
    gPermanentStandby := false
    gTapCommand := 0
    gRxIdleMode := false
    eeprom1F00 := 0 }

/-- Whether an effect is a command sent to the external controller: in
repeater.c these are the `DebugPrint` lines that carry the tag `ESP32: `
(lines 89-91); every other effect, the `Tap command` log line included, is
not. -/
def isForward (e : Effect) : Bool :=
  match e with
  | Effect.DebugPrint msg => decide (msg.data.take 7 = "ESP32: ".data)
  | _ => false

/-- The commands forwarded to the external controller among the effects of a
call. -/
def forwarded (es : List Effect) : List Effect :=
  es.filter isForward

/-- Whether a call is a call of `REPEATER_Init`. -/
def Op.isInit (o : Op) : Bool :=
  match o with
  | Op.Init _ => true
  | _ => false

/-- The calls that take a device from initialisation at tick 0 through a
watchdog refresh in Idle, the scheduled wake, the setup window and the
identification burst into Listen at tick 1440100. -/
def cycleToListen : List Op :=
  [Op.Process (FUNCTION_OTHER 0) 1440000, Op.Process (FUNCTION_OTHER 0) 1440000,
    Op.Process (FUNCTION_OTHER 0) 1440100, Op.Process (FUNCTION_OTHER 0) 1440100]

/-! ## Basic facts about the embedding -/

theorem liveSession_false_of_ne (f : FUNCTION_t)
    (ht : f ≠ FUNCTION_TRANSMIT) (hr : f ≠ FUNCTION_RECEIVE) : liveSession f = false := by
  simp [liveSession, ht, hr]

theorem liveSession_true_of_eq (f : FUNCTION_t)
    (h : f = FUNCTION_TRANSMIT ∨ f = FUNCTION_RECEIVE) : liveSession f = true := by
  rcases h with h | h <;> simp [liveSession, h]

theorem process_of_watchdog (f : FUNCTION_t) (now : Nat) (s : State)
    (hf : liveSession f = false) (hw : watchdogExpired now s) :
    REPEATER_Process f now s = watchdogBranch now s := by
  simp [REPEATER_Process, hf, hw]

theorem process_of_switch (f : FUNCTION_t) (now : Nat) (s : State)
    (hf : liveSession f = false) (hw : ¬ watchdogExpired now s) :
    REPEATER_Process f now s = switchBranch now s := by
  simp [REPEATER_Process, hf, hw]

theorem sub32_eq_sub (a b : Nat) (hb : b ≤ a) (ha : a < 4294967296) :
    sub32 a b = a - b := by
  unfold sub32
  omega

theorem sub32_eq_wrap (a b : Nat) (hab : a < b) (hb : b < 4294967296) :
    sub32 a b = a + 4294967296 - b := by
  unfold sub32
  omega

theorem add32_eq_add (a b : Nat) (h : a + b < 4294967296) : add32 a b = a + b := by
  unfold add32
  omega

theorem watchdogBranch_state (now : Nat) (s : State) :
    (watchdogBranch now s).1 =
      { s with gRepeaterState := restState s, gStateTimer := now, gWatchdogTimer := now } := by
  unfold watchdogBranch EnterStandby restState
  cases s.gPermanentStandby <;> simp

/-! ## Invariants of runs -/

theorem run_nil (s : State) : run [] s = s := rfl

theorem run_cons (o : Op) (ops : List Op) (s : State) :
    run (o :: ops) s = run ops (step o s).1 := rfl

theorem run_preserves (P : State → Prop) (hstep : ∀ (o : Op) (s : State), P s → P (step o s).1)
    (ops : List Op) (s : State) (h : P s) : P (run ops s) := by
  induction ops generalizing s with
  | nil => exact h
  | cons o rest ih =>
    rw [run_cons]
    exact ih _ (hstep o s h)

theorem init_state (now : Nat) (s : State) :
    (REPEATER_Init now s).1.gRepeaterState =
      (if (REPEATER_Init now s).1.gPermanentStandby = true then REPEATER_STATE_STANDBY
        else REPEATER_STATE_IDLE) := by
  simp [REPEATER_Init]

theorem step_keeps_timers_equal (o : Op) (s : State)
    (h : s.gRepeaterState = REPEATER_STATE_WAKE ∨ s.gRepeaterState = REPEATER_STATE_MORSE ∨
        s.gRepeaterState = REPEATER_STATE_LISTEN → s.gStateTimer = s.gWatchdogTimer) :
    (step o s).1.gRepeaterState = REPEATER_STATE_WAKE ∨
        (step o s).1.gRepeaterState = REPEATER_STATE_MORSE ∨
        (step o s).1.gRepeaterState = REPEATER_STATE_LISTEN →
      (step o s).1.gStateTimer = (step o s).1.gWatchdogTimer := by
  obtain ⟨st, nw, stt, wd, ps, tap, rx, ee⟩ := s
  simp only at h
  cases o with
  | Init now =>
    simp only [step, REPEATER_Init]
    split_ifs <;> simp
  | SetPermanentStandby enable =>
    cases st <;> cases enable <;> simp [step, REPEATER_SetPermanentStandby] <;> simp_all
  | ProcessTapCommand taps =>
    simp only [step, REPEATER_ProcessTapCommand]
    split_ifs <;> simpa using h
  | WakeFromStandby now =>
    cases st <;> simp [step, REPEATER_WakeFromStandby] <;> simp_all
  | Process f now =>
    cases st <;> cases ps <;>
      simp [step, REPEATER_Process, watchdogBranch, switchBranch, EnterStandby, restState] <;>
      (try split_ifs) <;> simp_all

theorem process_keeps_next_wake (f : FUNCTION_t) (now : Nat) (s : State)
    (h : ¬ (liveSession f = false ∧ sub32 now s.gWatchdogTimer ≤ 500 ∧
        s.gRepeaterState = REPEATER_STATE_LISTEN ∧ sub32 now s.gStateTimer ≥ 5000)) :
    (REPEATER_Process f now s).1.gNextWakeTime = s.gNextWakeTime := by
  obtain ⟨st, nw, stt, wd, ps, tap, rx, ee⟩ := s
  simp only at h
  cases hf : liveSession f <;> cases st <;> cases ps <;>
    by_cases hw : sub32 now wd > 500 <;>
    simp [REPEATER_Process, watchdogExpired, watchdogBranch, switchBranch, EnterStandby,
      restState, hf, hw] <;>
    (try split_ifs) <;> simp_all

theorem timers_equal_after_init (s0 : State) (t0 : Nat) (ops : List Op) :
    (run ops (REPEATER_Init t0 s0).1).gRepeaterState = REPEATER_STATE_WAKE ∨
        (run ops (REPEATER_Init t0 s0).1).gRepeaterState = REPEATER_STATE_MORSE ∨
        (run ops (REPEATER_Init t0 s0).1).gRepeaterState = REPEATER_STATE_LISTEN →
      (run ops (REPEATER_Init t0 s0).1).gStateTimer
        = (run ops (REPEATER_Init t0 s0).1).gWatchdogTimer := by
  apply run_preserves
    (fun s => s.gRepeaterState = REPEATER_STATE_WAKE ∨
        s.gRepeaterState = REPEATER_STATE_MORSE ∨
        s.gRepeaterState = REPEATER_STATE_LISTEN → s.gStateTimer = s.gWatchdogTimer)
    step_keeps_timers_equal
  intro h
  rw [init_state] at h
  split_ifs at h <;> simp at h

theorem listen_complete_unreachable (s : State) (f : FUNCTION_t) (now : Nat)
    (heq : s.gRepeaterState = REPEATER_STATE_LISTEN → s.gStateTimer = s.gWatchdogTimer) :
    ¬ (liveSession f = false ∧ sub32 now s.gWatchdogTimer ≤ 500 ∧
        s.gRepeaterState = REPEATER_STATE_LISTEN ∧ sub32 now s.gStateTimer ≥ 5000) := by
  rintro ⟨_, hw, hs, hd⟩
  rw [heq hs] at hd
  omega

theorem step_keeps_next_wake (o : Op) (s : State) (ho : o.isInit = false)
    (heq : s.gRepeaterState = REPEATER_STATE_LISTEN → s.gStateTimer = s.gWatchdogTimer) :
    (step o s).1.gNextWakeTime = s.gNextWakeTime := by
  cases o with
  | Init now => simp [Op.isInit] at ho
  | SetPermanentStandby enable =>
    simp only [step, REPEATER_SetPermanentStandby]
    split_ifs <;> rfl
  | ProcessTapCommand taps =>
    simp only [step, REPEATER_ProcessTapCommand]
    split_ifs <;> rfl
  | WakeFromStandby now =>
    simp only [step, REPEATER_WakeFromStandby]
    split_ifs <;> rfl
  | Process f now =>
    exact process_keeps_next_wake f now s (listen_complete_unreachable s f now heq)

theorem run_keeps_next_wake (ops : List Op) (s : State)
    (hops : ∀ o ∈ ops, o.isInit = false)
    (heq : s.gRepeaterState = REPEATER_STATE_WAKE ∨ s.gRepeaterState = REPEATER_STATE_MORSE ∨
        s.gRepeaterState = REPEATER_STATE_LISTEN → s.gStateTimer = s.gWatchdogTimer) :
    (run ops s).gNextWakeTime = s.gNextWakeTime := by
  induction ops generalizing s with
  | nil => rfl
  | cons o rest ih =>
    rw [run_cons, ih (step o s).1 (fun o1 h1 => hops o1 (List.mem_cons_of_mem o h1))
      (step_keeps_timers_equal o s heq)]
    exact step_keeps_next_wake o s (hops o (List.mem_cons_self o rest))
      (fun h => heq (Or.inr (Or.inr h)))

theorem step_keeps_rest_agreement (o : Op) (s : State)
    (h : (s.gRepeaterState = REPEATER_STATE_STANDBY → s.gPermanentStandby = true) ∧
      (s.gRepeaterState = REPEATER_STATE_IDLE → s.gPermanentStandby = false)) :
    ((step o s).1.gRepeaterState = REPEATER_STATE_STANDBY →
        (step o s).1.gPermanentStandby = true) ∧
      ((step o s).1.gRepeaterState = REPEATER_STATE_IDLE →
        (step o s).1.gPermanentStandby = false) := by
  obtain ⟨st, nw, stt, wd, ps, tap, rx, ee⟩ := s
  simp only at h
  cases o with
  | Init now =>
    simp only [step, REPEATER_Init]
    split_ifs <;> simp_all
  | SetPermanentStandby enable =>
    cases st <;> cases enable <;> simp [step, REPEATER_SetPermanentStandby]
  | ProcessTapCommand taps =>
    simp only [step, REPEATER_ProcessTapCommand]
    split_ifs <;> simpa using h
  | WakeFromStandby now =>
    cases st <;> simp_all [step, REPEATER_WakeFromStandby]
  | Process f now =>
    cases st <;> cases ps <;>
      simp [step, REPEATER_Process, watchdogBranch, switchBranch, EnterStandby, restState] <;>
      (try split_ifs) <;> simp_all

/-! ## C1: watchdog recovery -/

/-- C1. Watchdog recovery: from every state other than Standby, when
`(now - gWatchdogTimer) mod 2^32 > 500` and no live TX/RX session is in
progress, a `REPEATER_Process` step ends in Standby if `gPermanentStandby` is
set and in Idle otherwise, with both timers set to `now`; the result is never
Morse (nor Wake, Listen or Active). -/
theorem C1_watchdog_recovery (s : State) (f : FUNCTION_t) (now : Nat)
    (ht : f ≠ FUNCTION_TRANSMIT) (hr : f ≠ FUNCTION_RECEIVE)
    (hs : s.gRepeaterState ≠ REPEATER_STATE_STANDBY)
    (hw : sub32 now s.gWatchdogTimer > 500) :
    (REPEATER_Process f now s).1.gRepeaterState =
        (if s.gPermanentStandby = true then REPEATER_STATE_STANDBY else REPEATER_STATE_IDLE) ∧
      (REPEATER_Process f now s).1.gStateTimer = now ∧
      (REPEATER_Process f now s).1.gWatchdogTimer = now ∧
      (REPEATER_Process f now s).1.gRepeaterState ≠ REPEATER_STATE_MORSE := by
  have hp := process_of_watchdog f now s (liveSession_false_of_ne f ht hr) ⟨hs, hw⟩
  rw [hp, watchdogBranch_state]
  unfold restState
  cases s.gPermanentStandby <;> simp

/-- C1, at a concrete input: a device left in Wake since tick 0 and processed
at tick 1000 goes back to Idle, not on to Morse. -/
theorem C1_watchdog_recovery_witness :
    (REPEATER_Process (FUNCTION_OTHER 0) 1000 sampleWake).1.gRepeaterState =
        (if sampleWake.gPermanentStandby = true then REPEATER_STATE_STANDBY
          else REPEATER_STATE_IDLE) ∧
      (REPEATER_Process (FUNCTION_OTHER 0) 1000 sampleWake).1.gStateTimer = 1000 ∧
      (REPEATER_Process (FUNCTION_OTHER 0) 1000 sampleWake).1.gWatchdogTimer = 1000 ∧
      (REPEATER_Process (FUNCTION_OTHER 0) 1000 sampleWake).1.gRepeaterState ≠
        REPEATER_STATE_MORSE :=
  C1_watchdog_recovery sampleWake (FUNCTION_OTHER 0) 1000 (by decide) (by decide)
    (by decide) (by decide)

/-! ## C2: the next wake after a completed listen window -/

/-- C3, as stated, fails: after `REPEATER_Init` with byte 0x00 at tick 0 on a
freshly booted device the state is Idle and the wake is due at tick 1440000,
yet the first `REPEATER_Process` step at tick 1440000 is a watchdog recovery
that stays in Idle. -/
theorem C3_counterexample :
    (afterInit false 0 0 []).gRepeaterState = REPEATER_STATE_IDLE ∧
      1440000 ≥ (afterInit false 0 0 []).gNextWakeTime ∧
      1440000 ≥ 0 + 1440000 ∧
      liveSession (FUNCTION_OTHER 0) = false ∧
      (REPEATER_Process (FUNCTION_OTHER 0) 1440000 (afterInit false 0 0 [])).1.gRepeaterState
        = REPEATER_STATE_IDLE ∧
      (REPEATER_Process (FUNCTION_OTHER 0) 1440000 (afterInit false 0 0 [])).1.gRepeaterState
        ≠ REPEATER_STATE_WAKE := by
  decide

/-- C3, amended. On every run from `REPEATER_Init`, with no live session and
`now >= gNextWakeTime`: a `REPEATER_Process` step ends in Wake from Standby,
and from Idle when the watchdog window has not expired; from Idle with the
window expired it is a watchdog recovery that stays in Idle, refreshes
`gWatchdogTimer` and keeps `gNextWakeTime`. In particular, after
`REPEATER_Init` with bit 0 of the byte clear at tick `t0` on a freshly booted
device, the first step at a 32-bit tick `now >= t0 + 1440000` stays in Idle,
and the next step, at a tick `now2` with `now <= now2 <= now + 500`, ends in
Wake. -/
theorem C3_scheduled_wake (f : FUNCTION_t)
    (ht : f ≠ FUNCTION_TRANSMIT) (hr : f ≠ FUNCTION_RECEIVE) :
    (∀ (s0 : State) (t0 : Nat) (ops : List Op) (now : Nat),
        ((run ops (REPEATER_Init t0 s0).1).gRepeaterState = REPEATER_STATE_IDLE ∨
          (run ops (REPEATER_Init t0 s0).1).gRepeaterState = REPEATER_STATE_STANDBY) →
        now ≥ (run ops (REPEATER_Init t0 s0).1).gNextWakeTime →
        ((run ops (REPEATER_Init t0 s0).1).gRepeaterState = REPEATER_STATE_IDLE →
          sub32 now (run ops (REPEATER_Init t0 s0).1).gWatchdogTimer ≤ 500) →
        (REPEATER_Process f now (run ops (REPEATER_Init t0 s0).1)).1.gRepeaterState
          = REPEATER_STATE_WAKE) ∧
      (∀ (s0 : State) (t0 : Nat) (ops : List Op) (now : Nat),
        (run ops (REPEATER_Init t0 s0).1).gRepeaterState = REPEATER_STATE_IDLE →
        sub32 now (run ops (REPEATER_Init t0 s0).1).gWatchdogTimer > 500 →
        (REPEATER_Process f now (run ops (REPEATER_Init t0 s0).1)).1.gRepeaterState
            = REPEATER_STATE_IDLE ∧
          (REPEATER_Process f now (run ops (REPEATER_Init t0 s0).1)).1.gWatchdogTimer = now ∧
          (REPEATER_Process f now (run ops (REPEATER_Init t0 s0).1)).1.gNextWakeTime
            = (run ops (REPEATER_Init t0 s0).1).gNextWakeTime) ∧
      (∀ (rxIdle : Bool) (byte t0 now now2 : Nat),
        byte % 2 = 0 → now < 4294967296 → t0 + 1440000 ≤ now →
        now ≤ now2 → now2 ≤ now + 500 → now2 < 4294967296 →
        (REPEATER_Init t0 (bootState rxIdle byte)).1.gRepeaterState = REPEATER_STATE_IDLE ∧
          (REPEATER_Process f now
              (REPEATER_Init t0 (bootState rxIdle byte)).1).1.gRepeaterState
            = REPEATER_STATE_IDLE ∧
          (REPEATER_Process f now2
              (REPEATER_Process f now
                (REPEATER_Init t0 (bootState rxIdle byte)).1).1).1.gRepeaterState
            = REPEATER_STATE_WAKE) := by
  have hf := liveSession_false_of_ne f ht hr
  have inv : ∀ (s0 : State) (t0 : Nat) (ops : List Op),
      (run ops (REPEATER_Init t0 s0).1).gRepeaterState = REPEATER_STATE_IDLE →
      (run ops (REPEATER_Init t0 s0).1).gPermanentStandby = false := by
    intro s0 t0 ops
    have h := run_preserves
      (fun s => (s.gRepeaterState = REPEATER_STATE_STANDBY → s.gPermanentStandby = true) ∧
        (s.gRepeaterState = REPEATER_STATE_IDLE → s.gPermanentStandby = false))
      step_keeps_rest_agreement ops (REPEATER_Init t0 s0).1
      (by show _ ∧ _; rw [init_state]; split_ifs with h <;> simp_all)
    exact h.2
  refine ⟨?_, ?_, ?_⟩
  · intro s0 t0 ops now hs hn hw
    have hps := inv s0 t0 ops
    generalize run ops (REPEATER_Init t0 s0).1 = s at hs hn hw hps
    have hne : ¬ watchdogExpired now s := by
      unfold watchdogExpired
      rcases hs with h | h
      · have := hw h
        omega
      · simp [h]
    rw [process_of_switch f now s hf hne]
    unfold switchBranch
    rcases hs with h | h
    · simp [h, hps h, hn]
    · simp [h, hn]
  · intro s0 t0 ops now hs hw
    have hps := inv s0 t0 ops hs
    generalize run ops (REPEATER_Init t0 s0).1 = s at hs hw hps
    have hx : watchdogExpired now s := ⟨by simp [hs], hw⟩
    rw [process_of_watchdog f now s hf hx, watchdogBranch_state]
    simp [restState, hps]
  · intro rxIdle byte t0 now now2 hb hnow ht0 h12 h2 hnow2
    have hbit : (byte &&& 1) = 0 := by
      rw [Nat.and_one_is_mod]
      exact hb
    have hmod : (t0 + 1440000) % 4294967296 = t0 + 1440000 := by omega
    have hi : (REPEATER_Init t0 (bootState rxIdle byte)).1 =
        { bootState rxIdle byte with gNextWakeTime := t0 + 1440000 } := by
      simp [REPEATER_Init, bootState, hbit, add32, WAKE_INTERVAL, hmod]
    have hx : watchdogExpired now { bootState rxIdle byte with gNextWakeTime := t0 + 1440000 } := by
      refine ⟨by simp [bootState], ?_⟩
      simp only [bootState, sub32]
      omega
    have hp : (REPEATER_Process f now (REPEATER_Init t0 (bootState rxIdle byte)).1).1 =
        { bootState rxIdle byte with
          gNextWakeTime := t0 + 1440000
          gStateTimer := now
          gWatchdogTimer := now } := by
      rw [hi, process_of_watchdog f now _ hf hx, watchdogBranch_state]
      simp [restState, bootState]
    refine ⟨by rw [hi]; simp [bootState], by rw [hp]; simp [bootState], ?_⟩
    rw [hp]
    have hne : ¬ watchdogExpired now2
        { bootState rxIdle byte with
          gNextWakeTime := t0 + 1440000
          gStateTimer := now
          gWatchdogTimer := now } := by
      simp only [watchdogExpired, sub32]
      omega
    rw [process_of_switch f now2 _ hf hne]
    have hdue : t0 + 1440000 ≤ now2 := by omega
    simp [switchBranch, bootState, hdue]

/-- C3 amended, at concrete inputs: a device initialised at tick 0 whose
watchdog was refreshed by a step at tick 1439900 goes from Idle to Wake at
tick 1440000; and a device that is first processed at tick 1440000 stays in
Idle on that step and goes to Wake on the next one, at tick 1440001. -/
theorem C3_scheduled_wake_witness :
    (REPEATER_Process (FUNCTION_OTHER 0) 1440000
          (run [Op.Process (FUNCTION_OTHER 0) 1439900]
            (REPEATER_Init 0 (bootState false 0)).1)).1.gRepeaterState
        = REPEATER_STATE_WAKE ∧
      ((REPEATER_Init 0 (bootState false 0)).1.gRepeaterState = REPEATER_STATE_IDLE ∧
        (REPEATER_Process (FUNCTION_OTHER 0) 1440000
            (REPEATER_Init 0 (bootState false 0)).1).1.gRepeaterState
          = REPEATER_STATE_IDLE ∧
        (REPEATER_Process (FUNCTION_OTHER 0) 1440001
            (REPEATER_Process (FUNCTION_OTHER 0) 1440000
              (REPEATER_Init 0 (bootState false 0)).1).1).1.gRepeaterState
          = REPEATER_STATE_WAKE) :=
  ⟨(C3_scheduled_wake (FUNCTION_OTHER 0) (by decide) (by decide)).1 (bootState false 0) 0
      [Op.Process (FUNCTION_OTHER 0) 1439900] 1440000 (by decide) (by decide) (by decide),
    (C3_scheduled_wake (FUNCTION_OTHER 0) (by decide) (by decide)).2.2 false 0 0 1440000
      1440001 (by decide) (by decide) (by decide) (by decide) (by decide) (by decide)⟩

/-! ## C4: the order of the wake cycle -/

/-- C4. The wake cycle is traversed in order. From Wake a `REPEATER_Process`
step reaches Morse only with no live session, the watchdog not expired and a
dwell of at least 100 ticks, and with the watchdog not expired it goes to
Morse when the dwell is at least 100 and stays in Wake otherwise; it never
reaches Listen or Active, and it reaches Idle or Standby only through the
watchdog. Listen is entered only by a step taken in Morse. From Morse a step
goes to Listen unless guarded or recovered by the watchdog. From Listen a
step stays in Listen or goes to Idle/Standby, and without a watchdog timeout
only when the dwell is at least 5000 ticks. -/
theorem C4_cycle_order (s : State) (f : FUNCTION_t) (now : Nat) :
    (s.gRepeaterState = REPEATER_STATE_WAKE →
        ((REPEATER_Process f now s).1.gRepeaterState = REPEATER_STATE_MORSE →
          liveSession f = false ∧ sub32 now s.gWatchdogTimer ≤ 500 ∧
            sub32 now s.gStateTimer ≥ 100) ∧
        (liveSession f = false → sub32 now s.gWatchdogTimer ≤ 500 →
          sub32 now s.gStateTimer ≥ 100 →
          (REPEATER_Process f now s).1.gRepeaterState = REPEATER_STATE_MORSE) ∧
        (liveSession f = false → sub32 now s.gWatchdogTimer ≤ 500 →
          sub32 now s.gStateTimer < 100 →
          (REPEATER_Process f now s).1.gRepeaterState = REPEATER_STATE_WAKE) ∧
        (REPEATER_Process f now s).1.gRepeaterState ≠ REPEATER_STATE_LISTEN ∧
        (REPEATER_Process f now s).1.gRepeaterState ≠ REPEATER_STATE_ACTIVE ∧
        ((REPEATER_Process f now s).1.gRepeaterState = REPEATER_STATE_IDLE ∨
            (REPEATER_Process f now s).1.gRepeaterState = REPEATER_STATE_STANDBY →
          liveSession f = false ∧ sub32 now s.gWatchdogTimer > 500)) ∧
      ((REPEATER_Process f now s).1.gRepeaterState = REPEATER_STATE_LISTEN →
        s.gRepeaterState ≠ REPEATER_STATE_LISTEN →
        s.gRepeaterState = REPEATER_STATE_MORSE ∧ liveSession f = false ∧
          sub32 now s.gWatchdogTimer ≤ 500) ∧
      (s.gRepeaterState = REPEATER_STATE_MORSE →
        (REPEATER_Process f now s).1.gRepeaterState = REPEATER_STATE_LISTEN ∨
          ((REPEATER_Process f now s).1.gRepeaterState = REPEATER_STATE_MORSE ∧
            liveSession f = true) ∨
          (((REPEATER_Process f now s).1.gRepeaterState = REPEATER_STATE_IDLE ∨
              (REPEATER_Process f now s).1.gRepeaterState = REPEATER_STATE_STANDBY) ∧
            liveSession f = false ∧ sub32 now s.gWatchdogTimer > 500)) ∧
      (s.gRepeaterState = REPEATER_STATE_LISTEN →
        ((REPEATER_Process f now s).1.gRepeaterState = REPEATER_STATE_LISTEN ∨
          (REPEATER_Process f now s).1.gRepeaterState = REPEATER_STATE_IDLE ∨
          (REPEATER_Process f now s).1.gRepeaterState = REPEATER_STATE_STANDBY) ∧
        ((REPEATER_Process f now s).1.gRepeaterState ≠ REPEATER_STATE_LISTEN →
          liveSession f = false ∧
            (sub32 now s.gWatchdogTimer > 500 ∨ sub32 now s.gStateTimer ≥ 5000))) := by
  obtain ⟨st, nw, stt, wd, ps, tap, rx, ee⟩ := s
  cases hf : liveSession f <;> cases st <;> cases ps <;>
    by_cases hw : sub32 now wd > 500 <;>
    simp [REPEATER_Process, watchdogExpired, watchdogBranch, switchBranch, EnterStandby,
      restState, hf, hw] <;>
    (try split_ifs) <;> simp_all

/-- C4, at a concrete input: a device in Wake since tick 0 and processed at
tick 100 goes on to Morse, and processed at tick 99 stays in Wake. -/
theorem C4_cycle_order_witness :
    (REPEATER_Process (FUNCTION_OTHER 0) 100 sampleWake).1.gRepeaterState
        = REPEATER_STATE_MORSE ∧
      (REPEATER_Process (FUNCTION_OTHER 0) 99 sampleWake).1.gRepeaterState
        = REPEATER_STATE_WAKE :=
  ⟨((C4_cycle_order sampleWake (FUNCTION_OTHER 0) 100).1 rfl).2.1
      (by decide) (by decide) (by decide),
    ((C4_cycle_order sampleWake (FUNCTION_OTHER 0) 99).1 rfl).2.2.1
      (by decide) (by decide) (by decide)⟩

/-! ## C5 and C6: the standby toggle -/

/-- C5, as stated, fails: after `REPEATER_Init` with byte 0x01 and an explicit
wake request the device is in Wake with the flag set; setting the flag to
true, its current value, moves the device to Standby. -/
theorem C5_counterexample :
    (afterInit false 1 0 [Op.WakeFromStandby 10]).gPermanentStandby = true ∧
      (afterInit false 1 0 [Op.WakeFromStandby 10]).gRepeaterState = REPEATER_STATE_WAKE ∧
      (REPEATER_SetPermanentStandby true
          (afterInit false 1 0 [Op.WakeFromStandby 10])).1.gRepeaterState
        = REPEATER_STATE_STANDBY ∧
      (REPEATER_SetPermanentStandby true
          (afterInit false 1 0 [Op.WakeFromStandby 10])).1.gRepeaterState
        ≠ (afterInit false 1 0 [Op.WakeFromStandby 10]).gRepeaterState := by
  decide

/-- C5, amended. For `b` equal to the current flag,
`REPEATER_SetPermanentStandby b` always writes the byte (1 for true, 0 for
false) to 0x1F00 and keeps the flag; it leaves the repeater state unchanged
when the state agrees with `b` (Standby exactly when `b` is true), and
otherwise moves to Standby (for true) or to Idle (for false). -/
theorem C5_set_current_value (s : State) (b : Bool) (hb : b = s.gPermanentStandby) :
    (REPEATER_SetPermanentStandby b s).1.eeprom1F00 = (if b = true then 1 else 0) ∧
      Effect.EEPROM_WriteBuffer 0x1F00 (if b = true then 1 else 0)
        ∈ (REPEATER_SetPermanentStandby b s).2 ∧
      (REPEATER_SetPermanentStandby b s).1.gPermanentStandby = s.gPermanentStandby ∧
      ((s.gRepeaterState = REPEATER_STATE_STANDBY ↔ b = true) →
        (REPEATER_SetPermanentStandby b s).1.gRepeaterState = s.gRepeaterState) ∧
      (b = true → s.gRepeaterState ≠ REPEATER_STATE_STANDBY →
        (REPEATER_SetPermanentStandby b s).1.gRepeaterState = REPEATER_STATE_STANDBY) ∧
      (b = false → s.gRepeaterState = REPEATER_STATE_STANDBY →
        (REPEATER_SetPermanentStandby b s).1.gRepeaterState = REPEATER_STATE_IDLE) := by
  obtain ⟨st, nw, stt, wd, ps, tap, rx, ee⟩ := s
  subst hb
  cases st <;> cases b <;> simp [REPEATER_SetPermanentStandby, STANDBY_ADDR]

/-- C5 amended, at a concrete input: clearing the already clear flag of an
Idle device writes 0 to 0x1F00 and leaves the device in Idle. -/
theorem C5_set_current_value_witness :
    (REPEATER_SetPermanentStandby false sampleIdleDue).1.eeprom1F00
        = (if false = true then 1 else 0) ∧
      Effect.EEPROM_WriteBuffer 0x1F00 (if false = true then 1 else 0)
        ∈ (REPEATER_SetPermanentStandby false sampleIdleDue).2 ∧
      (REPEATER_SetPermanentStandby false sampleIdleDue).1.gPermanentStandby
        = sampleIdleDue.gPermanentStandby ∧
      ((sampleIdleDue.gRepeaterState = REPEATER_STATE_STANDBY ↔ false = true) →
        (REPEATER_SetPermanentStandby false sampleIdleDue).1.gRepeaterState
          = sampleIdleDue.gRepeaterState) ∧
      (false = true → sampleIdleDue.gRepeaterState ≠ REPEATER_STATE_STANDBY →
        (REPEATER_SetPermanentStandby false sampleIdleDue).1.gRepeaterState
          = REPEATER_STATE_STANDBY) ∧
      (false = false → sampleIdleDue.gRepeaterState = REPEATER_STATE_STANDBY →
        (REPEATER_SetPermanentStandby false sampleIdleDue).1.gRepeaterState
          = REPEATER_STATE_IDLE) :=
  C5_set_current_value sampleIdleDue false rfl

/-- C6. Standby toggle. Setting the flag while not in Standby ends in Standby
with flag and byte 0x01 and issues, after the EEPROM write, the log line,
radio idle, display sleep and the low-power request. Clearing it while in
Standby ends in Idle with flag and byte 0x00 and reconfigures the radio.
Clearing it in any other state leaves the repeater state unchanged. -/
theorem C6_standby_toggle (s : State) :
    (s.gRepeaterState ≠ REPEATER_STATE_STANDBY →
        REPEATER_SetPermanentStandby true s =
          ({ s with
              gPermanentStandby := true
              eeprom1F00 := 0x01
              gRepeaterState := REPEATER_STATE_STANDBY },
            [Effect.EEPROM_WriteBuffer 0x1F00 0x01, Effect.DebugPrint "Entering Standby",
              Effect.BK4819_Idle, Effect.ST7565_Sleep, Effect.PCON_Or 2])) ∧
      (s.gRepeaterState = REPEATER_STATE_STANDBY →
        REPEATER_SetPermanentStandby false s =
          ({ s with
              gPermanentStandby := false
              eeprom1F00 := 0x00
              gRepeaterState := REPEATER_STATE_IDLE },
            [Effect.EEPROM_WriteBuffer 0x1F00 0x00, Effect.DebugPrint "Exiting Standby",
              Effect.RADIO_SetupRegisters true])) ∧
      (s.gRepeaterState ≠ REPEATER_STATE_STANDBY →
        (REPEATER_SetPermanentStandby false s).1.gRepeaterState = s.gRepeaterState ∧
          (REPEATER_SetPermanentStandby false s).1.eeprom1F00 = 0x00) := by
  obtain ⟨st, nw, stt, wd, ps, tap, rx, ee⟩ := s
  cases st <;> simp [REPEATER_SetPermanentStandby, STANDBY_ADDR, PCON_STOP]

/-- C6, at concrete inputs: setting the flag in Wake ends in Standby, and
clearing it on a device initialised into Standby ends in Idle. -/
theorem C6_standby_toggle_witness :
    REPEATER_SetPermanentStandby true sampleWake =
        ({ sampleWake with
            gPermanentStandby := true
            eeprom1F00 := 0x01
            gRepeaterState := REPEATER_STATE_STANDBY },
          [Effect.EEPROM_WriteBuffer 0x1F00 0x01, Effect.DebugPrint "Entering Standby",
            Effect.BK4819_Idle, Effect.ST7565_Sleep, Effect.PCON_Or 2]) ∧
      REPEATER_SetPermanentStandby false (afterInit false 1 0 []) =
        ({ afterInit false 1 0 [] with
            gPermanentStandby := false
            eeprom1F00 := 0x00
            gRepeaterState := REPEATER_STATE_IDLE },
          [Effect.EEPROM_WriteBuffer 0x1F00 0x00, Effect.DebugPrint "Exiting Standby",
            Effect.RADIO_SetupRegisters true]) :=
  ⟨(C6_standby_toggle sampleWake).1 (by decide),
    (C6_standby_toggle (afterInit false 1 0 [])).2.1 (by decide)⟩

/-! ## C7: the persisted flag and the in-memory flag -/

theorem init_flag (now : Nat) (s : State) :
    (REPEATER_Init now s).1.gPermanentStandby = decide (s.eeprom1F00 % 2 = 1) := by
  simp only [REPEATER_Init, Nat.and_one_is_mod]
  rcases Nat.mod_two_eq_zero_or_one s.eeprom1F00 with h | h <;> simp [h]

theorem init_eeprom (now : Nat) (s : State) :
    (REPEATER_Init now s).1.eeprom1F00 = s.eeprom1F00 := by
  simp [REPEATER_Init]

theorem step_keeps_flag_in_step (o : Op) (s : State)
    (h : s.gPermanentStandby = decide (s.eeprom1F00 % 2 = 1)) :
    (step o s).1.gPermanentStandby = decide ((step o s).1.eeprom1F00 % 2 = 1) := by
  cases o with
  | Init now =>
    show (REPEATER_Init now s).1.gPermanentStandby
      = decide ((REPEATER_Init now s).1.eeprom1F00 % 2 = 1)
    rw [init_flag, init_eeprom]
  | SetPermanentStandby enable =>
    show (REPEATER_SetPermanentStandby enable s).1.gPermanentStandby
      = decide ((REPEATER_SetPermanentStandby enable s).1.eeprom1F00 % 2 = 1)
    unfold REPEATER_SetPermanentStandby
    cases enable <;> simp <;> split_ifs <;> simp
  | ProcessTapCommand taps =>
    show (REPEATER_ProcessTapCommand taps s).1.gPermanentStandby
      = decide ((REPEATER_ProcessTapCommand taps s).1.eeprom1F00 % 2 = 1)
    unfold REPEATER_ProcessTapCommand
    split_ifs <;> simpa using h
  | WakeFromStandby now =>
    show (REPEATER_WakeFromStandby now s).1.gPermanentStandby
      = decide ((REPEATER_WakeFromStandby now s).1.eeprom1F00 % 2 = 1)
    unfold REPEATER_WakeFromStandby
    split_ifs <;> simpa using h
  | Process f now =>
    show (REPEATER_Process f now s).1.gPermanentStandby
      = decide ((REPEATER_Process f now s).1.eeprom1F00 % 2 = 1)
    obtain ⟨st, nw, stt, wd, ps, tap, rx, ee⟩ := s
    simp only at h
    cases st <;> cases ps <;>
      simp [REPEATER_Process, watchdogBranch, switchBranch, EnterStandby, restState] <;>
      (try split_ifs) <;> simp_all

theorem run_keeps_flag_in_step (ops : List Op) (s : State)
    (h : s.gPermanentStandby = decide (s.eeprom1F00 % 2 = 1)) :
    (run ops s).gPermanentStandby = decide ((run ops s).eeprom1F00 % 2 = 1) := by
  induction ops generalizing s with
  | nil => simpa [run] using h
  | cons o rest ih =>
    have h1 := step_keeps_flag_in_step o s h
    have h2 := ih (step o s).1 h1
    simpa [run] using h2

/-- C7. The persisted flag and the in-memory flag do not diverge.
`REPEATER_SetPermanentStandby b` followed by `REPEATER_Init` yields
`REPEATER_GetPermanentStandby = b`; the byte written is 0x01 for true and 0x00
for false, and a stored 0x01 reads back true and a stored 0x00 false; and in
every state reached from `REPEATER_Init` by any sequence of the public
operations the in-memory flag equals bit 0 of the byte stored at 0x1F00. -/
theorem C7_flag_matches_storage :
    (∀ (s : State) (b : Bool) (now : Nat),
        REPEATER_GetPermanentStandby
          (REPEATER_Init now (REPEATER_SetPermanentStandby b s).1).1 = b) ∧
      (∀ (s : State),
        (REPEATER_SetPermanentStandby true s).1.eeprom1F00 = 0x01 ∧
          (REPEATER_SetPermanentStandby false s).1.eeprom1F00 = 0x00) ∧
      (∀ (s : State) (now : Nat),
        REPEATER_GetPermanentStandby (REPEATER_Init now { s with eeprom1F00 := 0x01 }).1 = true ∧
          REPEATER_GetPermanentStandby (REPEATER_Init now { s with eeprom1F00 := 0x00 }).1
            = false) ∧
      (∀ (s0 : State) (t0 : Nat) (ops : List Op),
        (run ops (REPEATER_Init t0 s0).1).gPermanentStandby
          = decide ((run ops (REPEATER_Init t0 s0).1).eeprom1F00 % 2 = 1)) := by
  refine ⟨?_, ?_, ?_, ?_⟩
  · intro s b now
    unfold REPEATER_GetPermanentStandby
    rw [init_flag]
    unfold REPEATER_SetPermanentStandby
    cases b <;> simp <;> split_ifs <;> simp
  · intro s
    unfold REPEATER_SetPermanentStandby
    constructor <;> simp <;> split_ifs <;> simp
  · intro s now
    unfold REPEATER_GetPermanentStandby
    rw [init_flag, init_flag]
    simp
  · intro s0 t0 ops
    apply run_keeps_flag_in_step
    rw [init_flag, init_eeprom]

/-! ## C8: initialisation -/

/-- C8, as stated, fails: `REPEATER_Init` called at tick 2^32 - 1 stores
`gNextWakeTime` = 1439999, not `now + 1440000`. -/
theorem C8_counterexample :
    (REPEATER_Init 4294967295 (bootState false 0)).1.gNextWakeTime = 1439999 ∧
      (REPEATER_Init 4294967295 (bootState false 0)).1.gNextWakeTime
        ≠ 4294967295 + 1440000 := by
  decide

/-- C8, amended. For every persisted byte `d` and tick `now`, `REPEATER_Init`
sets the flag to bit 0 of `d` (the other bits are ignored), the state to
Standby when the bit is set and to Idle otherwise, issues radio idle, display
sleep and the low-power request once each when the bit is set and not at all
otherwise, and sets `gNextWakeTime` to `(now + 1440000) mod 2^32`: this is
`now + 1440000` when that sum is below 2^32, and `now + 1440000 - 2^32` for a
32-bit tick in the last 1440000 ticks before the counter wraps. -/
theorem C8_init (s : State) (d now : Nat) :
    (REPEATER_Init now { s with eeprom1F00 := d }).1.gPermanentStandby
        = decide (d % 2 = 1) ∧
      (REPEATER_Init now { s with eeprom1F00 := d }).1.gRepeaterState
        = (if d % 2 = 1 then REPEATER_STATE_STANDBY else REPEATER_STATE_IDLE) ∧
      (REPEATER_Init now { s with eeprom1F00 := d }).2.count Effect.BK4819_Idle
        = (if d % 2 = 1 then 1 else 0) ∧
      (REPEATER_Init now { s with eeprom1F00 := d }).2.count Effect.ST7565_Sleep
        = (if d % 2 = 1 then 1 else 0) ∧
      (REPEATER_Init now { s with eeprom1F00 := d }).2.count (Effect.PCON_Or 2)
        = (if d % 2 = 1 then 1 else 0) ∧
      (REPEATER_Init now { s with eeprom1F00 := d }).1.gNextWakeTime
        = (now + 1440000) % 4294967296 ∧
      (now + 1440000 < 4294967296 →
        (REPEATER_Init now { s with eeprom1F00 := d }).1.gNextWakeTime = now + 1440000) ∧
      (now < 4294967296 → 4294967296 ≤ now + 1440000 →
        (REPEATER_Init now { s with eeprom1F00 := d }).1.gNextWakeTime
          = now + 1440000 - 4294967296) := by
  have hnw : (REPEATER_Init now { s with eeprom1F00 := d }).1.gNextWakeTime
      = (now + 1440000) % 4294967296 := by
    simp [REPEATER_Init, add32, WAKE_INTERVAL]
  refine ⟨init_flag now _, ?_, ?_, ?_, ?_, hnw, ?_, ?_⟩
  · simp only [REPEATER_Init, Nat.and_one_is_mod]
    rcases Nat.mod_two_eq_zero_or_one d with h | h <;> simp [h]
  · simp only [REPEATER_Init, Nat.and_one_is_mod, PCON_STOP]
    rcases Nat.mod_two_eq_zero_or_one d with h | h <;> simp [h]
  · simp only [REPEATER_Init, Nat.and_one_is_mod, PCON_STOP]
    rcases Nat.mod_two_eq_zero_or_one d with h | h <;> simp [h]
  · simp only [REPEATER_Init, Nat.and_one_is_mod, PCON_STOP]
    rcases Nat.mod_two_eq_zero_or_one d with h | h <;> simp [h]
  · intro h
    rw [hnw]
    omega
  · intro h1 h2
    rw [hnw]
    omega

/-- C8 amended, at concrete inputs: at tick 0 with byte 0x01 the next wake is
set to 1440000, and at tick 2^32 - 1 it is set to 1439999. -/
theorem C8_init_witness :
    (REPEATER_Init 0 { bootState false 0 with eeprom1F00 := 1 }).1.gNextWakeTime
        = 0 + 1440000 ∧
      (REPEATER_Init 4294967295 { bootState false 0 with eeprom1F00 := 1 }).1.gNextWakeTime
        = 4294967295 + 1440000 - 4294967296 :=
  ⟨(C8_init (bootState false 0) 1 0).2.2.2.2.2.2.1 (by decide),
    (C8_init (bootState false 0) 1 4294967295).2.2.2.2.2.2.2 (by decide) (by decide)⟩

/-! ## C9: the explicit wake request -/

/-- C9. `REPEATER_WakeFromStandby` leaves the whole state unchanged and issues
no effect in Idle, Wake, Morse, Listen and Active; in Standby, at any tick and
whatever `gNextWakeTime` is, it ends in Wake with both timers set to `now`,
the idle-receive flag cleared and the radio reconfigured. -/
theorem C9_wake_request (s : State) (now : Nat) :
    (s.gRepeaterState ≠ REPEATER_STATE_STANDBY →
        REPEATER_WakeFromStandby now s = (s, [])) ∧
      (s.gRepeaterState = REPEATER_STATE_STANDBY →
        REPEATER_WakeFromStandby now s =
          ({ s with
              gRepeaterState := REPEATER_STATE_WAKE
              gStateTimer := now
              gWatchdogTimer := now
              gRxIdleMode := false },
            [Effect.DebugPrint "Waking from Standby", Effect.RADIO_SetupRegisters true])) := by
  constructor
  · intro h
    simp [REPEATER_WakeFromStandby, h]
  · intro h
    simp [REPEATER_WakeFromStandby, h]

/-- C9, at a concrete input: a device initialised into Standby at tick 0, whose
scheduled wake is due at tick 1440000, goes to Wake on a request at tick 10. -/
theorem C9_wake_request_witness :
    10 < (afterInit false 1 0 []).gNextWakeTime ∧
      REPEATER_WakeFromStandby 10 (afterInit false 1 0 []) =
        ({ afterInit false 1 0 [] with
            gRepeaterState := REPEATER_STATE_WAKE
            gStateTimer := 10
            gWatchdogTimer := 10
            gRxIdleMode := false },
          [Effect.DebugPrint "Waking from Standby", Effect.RADIO_SetupRegisters true]) :=
  ⟨by decide, (C9_wake_request (afterInit false 1 0 []) 10).2 (by decide)⟩

/-! ## C10: the guard -/

/-- C10. While `gCurrentFunction` is a live transmit or receive session,
`REPEATER_Process` changes nothing and issues no effect, whatever the state
and the tick. -/
theorem C10_guard (s : State) (f : FUNCTION_t) (now : Nat)
    (h : f = FUNCTION_TRANSMIT ∨ f = FUNCTION_RECEIVE) :
    REPEATER_Process f now s = (s, []) := by
  simp [REPEATER_Process, liveSession_true_of_eq f h]

/-- C10, at a concrete input: a device in Wake whose watchdog has expired and
whose scheduled wake is due is left untouched during a live transmission. -/
theorem C10_guard_witness :
    (sub32 2000000 sampleWake.gWatchdogTimer > 500 ∧
        2000000 ≥ sampleWake.gNextWakeTime) ∧
      REPEATER_Process FUNCTION_TRANSMIT 2000000 sampleWake = (sampleWake, []) :=
  ⟨by decide, C10_guard sampleWake FUNCTION_TRANSMIT 2000000 (Or.inl rfl)⟩

/-! ## C11: tap dispatch -/

/-- C11. For every tap count `t`, `REPEATER_ProcessTapCommand t` stores `t`
when `3 <= t <= 5` and 0 otherwise (so for 2 and for 6). For 3, 4 and 5 the
effects are exactly the log line of the count followed by one line to the
external controller, so exactly one command is forwarded, and the three
forwarded lines are pairwise distinct. For any other count no effect is
issued at all. -/
theorem C11_tap_dispatch (s : State) (t : Nat) :
    (REPEATER_ProcessTapCommand t s).1.gTapCommand = (if 3 ≤ t ∧ t ≤ 5 then t else 0) ∧
      (3 ≤ t ∧ t ≤ 5 →
        (forwarded (REPEATER_ProcessTapCommand t s).2).length = 1 ∧
          (REPEATER_ProcessTapCommand t s).2.length = 2 ∧
          (REPEATER_ProcessTapCommand t s).2.head?
            = some (Effect.DebugPrintf "Tap command: %d" t)) ∧
      (¬ (3 ≤ t ∧ t ≤ 5) → (REPEATER_ProcessTapCommand t s).2 = []) ∧
      (REPEATER_ProcessTapCommand 2 s).1.gTapCommand = 0 ∧
      (REPEATER_ProcessTapCommand 6 s).1.gTapCommand = 0 ∧
      (REPEATER_ProcessTapCommand 3 s).2 =
        [Effect.DebugPrintf "Tap command: %d" 3, Effect.DebugPrint "ESP32: Command 3"] ∧
      (REPEATER_ProcessTapCommand 4 s).2 =
        [Effect.DebugPrintf "Tap command: %d" 4, Effect.DebugPrint "ESP32: Command 4"] ∧
      (REPEATER_ProcessTapCommand 5 s).2 =
        [Effect.DebugPrintf "Tap command: %d" 5, Effect.DebugPrint "ESP32: Command 5"] ∧
      forwarded (REPEATER_ProcessTapCommand 3 s).2 = [Effect.DebugPrint "ESP32: Command 3"] ∧
      forwarded (REPEATER_ProcessTapCommand 4 s).2 = [Effect.DebugPrint "ESP32: Command 4"] ∧
      forwarded (REPEATER_ProcessTapCommand 5 s).2 = [Effect.DebugPrint "ESP32: Command 5"] ∧
      Effect.DebugPrint "ESP32: Command 3" ≠ Effect.DebugPrint "ESP32: Command 4" ∧
      Effect.DebugPrint "ESP32: Command 3" ≠ Effect.DebugPrint "ESP32: Command 5" ∧
      Effect.DebugPrint "ESP32: Command 4" ≠ Effect.DebugPrint "ESP32: Command 5" := by
  have e3 : (REPEATER_ProcessTapCommand 3 s).2 =
      [Effect.DebugPrintf "Tap command: %d" 3, Effect.DebugPrint "ESP32: Command 3"] := by
    simp [REPEATER_ProcessTapCommand]
  have e4 : (REPEATER_ProcessTapCommand 4 s).2 =
      [Effect.DebugPrintf "Tap command: %d" 4, Effect.DebugPrint "ESP32: Command 4"] := by
    simp [REPEATER_ProcessTapCommand]
  have e5 : (REPEATER_ProcessTapCommand 5 s).2 =
      [Effect.DebugPrintf "Tap command: %d" 5, Effect.DebugPrint "ESP32: Command 5"] := by
    simp [REPEATER_ProcessTapCommand]
  have f3 : forwarded (REPEATER_ProcessTapCommand 3 s).2
      = [Effect.DebugPrint "ESP32: Command 3"] := by
    rw [e3]
    decide
  have f4 : forwarded (REPEATER_ProcessTapCommand 4 s).2
      = [Effect.DebugPrint "ESP32: Command 4"] := by
    rw [e4]
    decide
  have f5 : forwarded (REPEATER_ProcessTapCommand 5 s).2
      = [Effect.DebugPrint "ESP32: Command 5"] := by
    rw [e5]
    decide
  refine ⟨?_, ?_, ?_, ?_, ?_, e3, e4, e5, f3, f4, f5, by decide, by decide, by decide⟩
  · unfold REPEATER_ProcessTapCommand
    split_ifs <;> rfl
  · rintro ⟨h3, h5⟩
    interval_cases t
    · rw [f3, e3]
      simp
    · rw [f4, e4]
      simp
    · rw [f5, e5]
      simp
  · intro h
    simp [REPEATER_ProcessTapCommand, h]
  · simp [REPEATER_ProcessTapCommand]
  · simp [REPEATER_ProcessTapCommand]

/-- C11, at concrete inputs: four taps forward one command, after the log
line of the count, and seven taps issue nothing. -/
theorem C11_tap_dispatch_witness :
    ((forwarded (REPEATER_ProcessTapCommand 4 sampleWake).2).length = 1 ∧
        (REPEATER_ProcessTapCommand 4 sampleWake).2.length = 2 ∧
        (REPEATER_ProcessTapCommand 4 sampleWake).2.head?
          = some (Effect.DebugPrintf "Tap command: %d" 4)) ∧
      (REPEATER_ProcessTapCommand 7 sampleWake).2 = [] :=
  ⟨(C11_tap_dispatch sampleWake 4).2.1 (by decide),
    (C11_tap_dispatch sampleWake 7).2.2.1 (by decide)⟩

/-! ## C12: the two timers in the transient states -/

/-- C12. In every execution that starts with `REPEATER_Init` and continues
with any sequence of calls of the public operations, at any ticks and with
any value of `gCurrentFunction`: whenever the state is Wake, Morse or Listen
the two timers are equal; so an unguarded `REPEATER_Process` step in Listen
with dwell at least 5000 is a watchdog recovery, the listen-complete branch
is never executed, no `REPEATER_Process` step changes `gNextWakeTime`, and
without a further `REPEATER_Init` it keeps the value `REPEATER_Init` gave it. -/
theorem C12_timers_equal (s0 : State) (t0 : Nat) (ops : List Op) :
    ((run ops (REPEATER_Init t0 s0).1).gRepeaterState = REPEATER_STATE_WAKE ∨
          (run ops (REPEATER_Init t0 s0).1).gRepeaterState = REPEATER_STATE_MORSE ∨
          (run ops (REPEATER_Init t0 s0).1).gRepeaterState = REPEATER_STATE_LISTEN →
        (run ops (REPEATER_Init t0 s0).1).gStateTimer
          = (run ops (REPEATER_Init t0 s0).1).gWatchdogTimer) ∧
      (∀ (f : FUNCTION_t) (now : Nat),
        (run ops (REPEATER_Init t0 s0).1).gRepeaterState = REPEATER_STATE_LISTEN →
        sub32 now (run ops (REPEATER_Init t0 s0).1).gStateTimer ≥ 5000 →
        liveSession f = false →
        REPEATER_Process f now (run ops (REPEATER_Init t0 s0).1)
          = watchdogBranch now (run ops (REPEATER_Init t0 s0).1)) ∧
      (∀ (f : FUNCTION_t) (now : Nat),
        ¬ (liveSession f = false ∧
          sub32 now (run ops (REPEATER_Init t0 s0).1).gWatchdogTimer ≤ 500 ∧
          (run ops (REPEATER_Init t0 s0).1).gRepeaterState = REPEATER_STATE_LISTEN ∧
          sub32 now (run ops (REPEATER_Init t0 s0).1).gStateTimer ≥ 5000)) ∧
      (∀ (f : FUNCTION_t) (now : Nat),
        (REPEATER_Process f now (run ops (REPEATER_Init t0 s0).1)).1.gNextWakeTime
          = (run ops (REPEATER_Init t0 s0).1).gNextWakeTime) ∧
      ((∀ o ∈ ops, o.isInit = false) →
        (run ops (REPEATER_Init t0 s0).1).gNextWakeTime = (REPEATER_Init t0 s0).1.gNextWakeTime ∧
          (REPEATER_Init t0 s0).1.gNextWakeTime = (t0 + 1440000) % 4294967296) := by
  have heq := timers_equal_after_init s0 t0 ops
  have hl : (run ops (REPEATER_Init t0 s0).1).gRepeaterState = REPEATER_STATE_LISTEN →
      (run ops (REPEATER_Init t0 s0).1).gStateTimer
        = (run ops (REPEATER_Init t0 s0).1).gWatchdogTimer :=
    fun h => heq (Or.inr (Or.inr h))
  refine ⟨heq, ?_, ?_, ?_, ?_⟩
  · intro f now hs hd hf
    apply process_of_watchdog f now _ hf
    refine ⟨by simp [hs], ?_⟩
    rw [← hl hs]
    omega
  · intro f now
    exact listen_complete_unreachable _ f now hl
  · intro f now
    exact process_keeps_next_wake f now _ (listen_complete_unreachable _ f now hl)
  · intro hops
    refine ⟨run_keeps_next_wake ops _ hops ?_, ?_⟩
    · intro h
      rw [init_state] at h
      split_ifs at h <;> simp at h
    · simp [REPEATER_Init, add32, WAKE_INTERVAL]

/-- C12, at a concrete run: a device initialised at tick 0 and taken through a
full cycle into Listen at tick 1440100 has equal timers there; the step at
tick 1445100, with dwell 5000, is a watchdog recovery, and `gNextWakeTime` is
still the 1440000 that `REPEATER_Init` set. -/
theorem C12_timers_equal_witness :
    (afterInit false 0 0 cycleToListen).gRepeaterState = REPEATER_STATE_LISTEN ∧
      sub32 1445100 (afterInit false 0 0 cycleToListen).gStateTimer ≥ 5000 ∧
      REPEATER_Process (FUNCTION_OTHER 0) 1445100 (afterInit false 0 0 cycleToListen)
        = watchdogBranch 1445100 (afterInit false 0 0 cycleToListen) ∧
      ((afterInit false 0 0 cycleToListen).gNextWakeTime
          = (REPEATER_Init 0 (bootState false 0)).1.gNextWakeTime ∧
        (REPEATER_Init 0 (bootState false 0)).1.gNextWakeTime
          = (0 + 1440000) % 4294967296) :=
  ⟨by decide, by decide,
    (C12_timers_equal (bootState false 0) 0 cycleToListen).2.1 (FUNCTION_OTHER 0) 1445100
      (by decide) (by decide) (by decide),
    (C12_timers_equal (bootState false 0) 0 cycleToListen).2.2.2.2 (by decide)⟩

/-! ## C13: when the watchdog timer is refreshed -/

/-- C13, as stated, fails in three ways. `REPEATER_SetPermanentStandby true`
moves a device from Wake to Standby and leaves `gWatchdogTimer` at 0 whatever
the tick of the call (here 1000). A `REPEATER_Process` step at tick 10 in Idle
with the flag set moves to Standby and leaves `gWatchdogTimer` at 0. And a
guarded step at tick 10 in Active leaves `gWatchdogTimer` at 0. -/
theorem C13_counterexample :
    ((REPEATER_SetPermanentStandby true sampleWake).1.gRepeaterState
          ≠ sampleWake.gRepeaterState ∧
        (REPEATER_SetPermanentStandby true sampleWake).1.gWatchdogTimer = 0 ∧
        (REPEATER_SetPermanentStandby true sampleWake).1.gWatchdogTimer ≠ 1000) ∧
      ((REPEATER_Process (FUNCTION_OTHER 0) 10 sampleIdleFlagged).1.gRepeaterState
          ≠ sampleIdleFlagged.gRepeaterState ∧
        (REPEATER_Process (FUNCTION_OTHER 0) 10 sampleIdleFlagged).1.gWatchdogTimer ≠ 10) ∧
      (sampleActive.gRepeaterState = REPEATER_STATE_ACTIVE ∧
        (REPEATER_Process FUNCTION_RECEIVE 10 sampleActive).1.gWatchdogTimer ≠ 10) := by
  decide

/-- C13, amended. A `REPEATER_Process` step that changes the repeater state
leaves `gWatchdogTimer = now`, except on the edge from Idle to Standby taken
when the flag is set and the watchdog has not expired, which leaves the timer
as it was. `REPEATER_WakeFromStandby`, when it changes the state, leaves
`gWatchdogTimer = now`. `REPEATER_SetPermanentStandby` never changes
`gWatchdogTimer`, also when it changes the state. An unguarded
`REPEATER_Process` step taken in Active leaves `gWatchdogTimer = now`. -/
theorem C13_watchdog_refresh (s : State) (now : Nat) :
    (∀ (f : FUNCTION_t),
        (REPEATER_Process f now s).1.gRepeaterState ≠ s.gRepeaterState →
        ¬ (s.gRepeaterState = REPEATER_STATE_IDLE ∧ s.gPermanentStandby = true ∧
          sub32 now s.gWatchdogTimer ≤ 500) →
        (REPEATER_Process f now s).1.gWatchdogTimer = now) ∧
      (∀ (f : FUNCTION_t),
        liveSession f = false → s.gRepeaterState = REPEATER_STATE_IDLE →
        s.gPermanentStandby = true → sub32 now s.gWatchdogTimer ≤ 500 →
        (REPEATER_Process f now s).1.gRepeaterState = REPEATER_STATE_STANDBY ∧
          (REPEATER_Process f now s).1.gWatchdogTimer = s.gWatchdogTimer) ∧
      ((REPEATER_WakeFromStandby now s).1.gRepeaterState ≠ s.gRepeaterState →
        (REPEATER_WakeFromStandby now s).1.gWatchdogTimer = now) ∧
      (∀ (b : Bool),
        (REPEATER_SetPermanentStandby b s).1.gWatchdogTimer = s.gWatchdogTimer) ∧
      (∀ (f : FUNCTION_t),
        liveSession f = false → s.gRepeaterState = REPEATER_STATE_ACTIVE →
        (REPEATER_Process f now s).1.gWatchdogTimer = now) := by
  obtain ⟨st, nw, stt, wd, ps, tap, rx, ee⟩ := s
  refine ⟨?_, ?_, ?_, ?_, ?_⟩
  · intro f
    cases hf : liveSession f <;> cases st <;> cases ps <;>
      by_cases hw : sub32 now wd > 500 <;>
      simp [REPEATER_Process, watchdogExpired, watchdogBranch, switchBranch, EnterStandby,
        restState, hf, hw] <;>
      (try split_ifs) <;> simp_all
  · intro f hf hs hps hw
    simp only at hs hps hw
    subst hs hps
    have hw2 : ¬ sub32 now wd > 500 := by omega
    simp [REPEATER_Process, watchdogExpired, switchBranch, EnterStandby, hf, hw2]
  · cases st <;> simp [REPEATER_WakeFromStandby]
  · intro b
    cases st <;> cases b <;> simp [REPEATER_SetPermanentStandby]
  · intro f hf hs
    simp only at hs
    subst hs
    cases ps <;> by_cases hw : sub32 now wd > 500 <;>
      simp [REPEATER_Process, watchdogExpired, watchdogBranch, switchBranch, EnterStandby,
        restState, hf, hw]

/-- C13 amended, at concrete inputs: the step from Wake to Morse at tick 100
leaves `gWatchdogTimer = 100`, and an unguarded step in Active at tick 10
leaves `gWatchdogTimer = 10`. -/
theorem C13_watchdog_refresh_witness :
    (REPEATER_Process (FUNCTION_OTHER 0) 100 sampleWake).1.gWatchdogTimer = 100 ∧
      (REPEATER_Process (FUNCTION_OTHER 0) 10 sampleActive).1.gWatchdogTimer = 10 :=
  ⟨(C13_watchdog_refresh sampleWake 100).1 (FUNCTION_OTHER 0) (by decide) (by decide),
    (C13_watchdog_refresh sampleActive 10).2.2.2.2 (FUNCTION_OTHER 0) (by decide)
      (by decide)⟩

/-! ## C14: the step taken in Morse -/

/-- C14. An unguarded `REPEATER_Process` step taken in Morse at sampled tick
`t`, the watchdog not expired, performs the identification transmission (log
line and 10000 ms blocking delay) and ends in Listen with both timers equal
to `t`, the tick read before the transmission. Hence the next unguarded step
at any tick `t1` with `(t1 - t) mod 2^32 > 500` is a watchdog recovery from
Listen to Idle/Standby; in particular at every tick `t + d`, taken in 32-bit
arithmetic, with `1000 <= d < 2^32`, that is at or after the end of the
1000-tick transmission. -/
theorem C14_morse_step (s : State) (f : FUNCTION_t) (t : Nat)
    (ht : f ≠ FUNCTION_TRANSMIT) (hr : f ≠ FUNCTION_RECEIVE)
    (hs : s.gRepeaterState = REPEATER_STATE_MORSE)
    (hw : sub32 t s.gWatchdogTimer ≤ 500) :
    REPEATER_Process f t s =
        ({ s with
            gRepeaterState := REPEATER_STATE_LISTEN
            gStateTimer := t
            gWatchdogTimer := t },
          [Effect.DebugPrint "Transmitting Morse ID", Effect.SYSTEM_DelayMs 10000,
            Effect.DebugPrint "State: Listen", Effect.RADIO_SetupRegisters true]) ∧
      (∀ (f1 : FUNCTION_t) (t1 : Nat),
        f1 ≠ FUNCTION_TRANSMIT → f1 ≠ FUNCTION_RECEIVE → sub32 t1 t > 500 →
        REPEATER_Process f1 t1 (REPEATER_Process f t s).1
            = watchdogBranch t1 (REPEATER_Process f t s).1 ∧
          (REPEATER_Process f1 t1 (REPEATER_Process f t s).1).1.gRepeaterState
            = (if s.gPermanentStandby = true then REPEATER_STATE_STANDBY
              else REPEATER_STATE_IDLE)) ∧
      (∀ (f1 : FUNCTION_t) (d : Nat),
        f1 ≠ FUNCTION_TRANSMIT → f1 ≠ FUNCTION_RECEIVE → t < 4294967296 →
        1000 ≤ d → d < 4294967296 →
        (REPEATER_Process f1 (add32 t d) (REPEATER_Process f t s).1).1.gRepeaterState
          = (if s.gPermanentStandby = true then REPEATER_STATE_STANDBY
            else REPEATER_STATE_IDLE)) := by
  have hne : ¬ watchdogExpired t s := by
    unfold watchdogExpired
    omega
  have hp : REPEATER_Process f t s =
      ({ s with
          gRepeaterState := REPEATER_STATE_LISTEN
          gStateTimer := t
          gWatchdogTimer := t },
        [Effect.DebugPrint "Transmitting Morse ID", Effect.SYSTEM_DelayMs 10000,
          Effect.DebugPrint "State: Listen", Effect.RADIO_SetupRegisters true]) := by
    rw [process_of_switch f t s (liveSession_false_of_ne f ht hr) hne]
    simp [switchBranch, hs, TransmitMorseID]
  have rec : ∀ (f1 : FUNCTION_t) (t1 : Nat),
      f1 ≠ FUNCTION_TRANSMIT → f1 ≠ FUNCTION_RECEIVE → sub32 t1 t > 500 →
      REPEATER_Process f1 t1 (REPEATER_Process f t s).1
          = watchdogBranch t1 (REPEATER_Process f t s).1 ∧
        (REPEATER_Process f1 t1 (REPEATER_Process f t s).1).1.gRepeaterState
          = (if s.gPermanentStandby = true then REPEATER_STATE_STANDBY
            else REPEATER_STATE_IDLE) := by
    intro f1 t1 ht1 hr1 hd
    have hx : watchdogExpired t1 (REPEATER_Process f t s).1 := by
      rw [hp]
      exact ⟨by simp, hd⟩
    have hq := process_of_watchdog f1 t1 _ (liveSession_false_of_ne f1 ht1 hr1) hx
    refine ⟨hq, ?_⟩
    rw [hq, watchdogBranch_state, hp]
    simp [restState]
  refine ⟨hp, rec, ?_⟩
  intro f1 d ht1 hr1 htb hd1 hd2
  refine (rec f1 (add32 t d) ht1 hr1 ?_).2
  unfold sub32 add32
  omega

/-- C14, at a concrete input: the step taken in Morse at tick 1440100 ends in
Listen with both timers at 1440100, and the next step, at tick 1441100 when
the transmission ends, takes Listen back to Idle. -/
theorem C14_morse_step_witness :
    REPEATER_Process (FUNCTION_OTHER 0) 1440100 sampleMorse =
        ({ sampleMorse with
            gRepeaterState := REPEATER_STATE_LISTEN
            gStateTimer := 1440100
            gWatchdogTimer := 1440100 },
          [Effect.DebugPrint "Transmitting Morse ID", Effect.SYSTEM_DelayMs 10000,
            Effect.DebugPrint "State: Listen", Effect.RADIO_SetupRegisters true]) ∧
      (REPEATER_Process (FUNCTION_OTHER 1) (add32 1440100 1000)
          (REPEATER_Process (FUNCTION_OTHER 0) 1440100 sampleMorse).1).1.gRepeaterState
        = (if sampleMorse.gPermanentStandby = true then REPEATER_STATE_STANDBY
          else REPEATER_STATE_IDLE) :=
  ⟨(C14_morse_step sampleMorse (FUNCTION_OTHER 0) 1440100 (by decide) (by decide)
      (by decide) (by decide)).1,
    (C14_morse_step sampleMorse (FUNCTION_OTHER 0) 1440100 (by decide) (by decide)
      (by decide) (by decide)).2.2 (FUNCTION_OTHER 1) 1000 (by decide) (by decide)
      (by decide) (by decide) (by decide)⟩

/-! ## C15: the flag and the resting states -/

/-- C15. In every state reached from `REPEATER_Init`, for any persisted byte,
by any sequence of the public operations at any ticks, Standby implies the
flag is set and Idle implies it is clear; so the branch of `REPEATER_Process`
that enters Standby from Idle because the flag is set is never taken, and a
`REPEATER_Process` step taken in Idle never ends in Standby. -/
theorem C15_rest_states_agree (s0 : State) (t0 : Nat) (ops : List Op) :
    ((run ops (REPEATER_Init t0 s0).1).gRepeaterState = REPEATER_STATE_STANDBY →
        (run ops (REPEATER_Init t0 s0).1).gPermanentStandby = true) ∧
      ((run ops (REPEATER_Init t0 s0).1).gRepeaterState = REPEATER_STATE_IDLE →
        (run ops (REPEATER_Init t0 s0).1).gPermanentStandby = false) ∧
      (∀ (f : FUNCTION_t) (now : Nat),
        ¬ (liveSession f = false ∧ ¬ watchdogExpired now (run ops (REPEATER_Init t0 s0).1) ∧
          (run ops (REPEATER_Init t0 s0).1).gRepeaterState = REPEATER_STATE_IDLE ∧
          (run ops (REPEATER_Init t0 s0).1).gPermanentStandby = true)) ∧
      (∀ (f : FUNCTION_t) (now : Nat),
        (run ops (REPEATER_Init t0 s0).1).gRepeaterState = REPEATER_STATE_IDLE →
        (REPEATER_Process f now (run ops (REPEATER_Init t0 s0).1)).1.gRepeaterState
          ≠ REPEATER_STATE_STANDBY) := by
  have inv : ((run ops (REPEATER_Init t0 s0).1).gRepeaterState = REPEATER_STATE_STANDBY →
        (run ops (REPEATER_Init t0 s0).1).gPermanentStandby = true) ∧
      ((run ops (REPEATER_Init t0 s0).1).gRepeaterState = REPEATER_STATE_IDLE →
        (run ops (REPEATER_Init t0 s0).1).gPermanentStandby = false) := by
    apply run_preserves
      (fun s => (s.gRepeaterState = REPEATER_STATE_STANDBY → s.gPermanentStandby = true) ∧
        (s.gRepeaterState = REPEATER_STATE_IDLE → s.gPermanentStandby = false))
      step_keeps_rest_agreement
    rw [init_state]
    split_ifs with h <;> simp_all
  refine ⟨inv.1, inv.2, ?_, ?_⟩
  · rintro f now ⟨_, _, hs, hps⟩
    rw [inv.2 hs] at hps
    exact Bool.false_ne_true hps
  · intro f now hs
    have hps := inv.2 hs
    generalize run ops (REPEATER_Init t0 s0).1 = s at hs hps
    obtain ⟨st, nw, stt, wd, ps, tap, rx, ee⟩ := s
    simp only at hs hps
    subst hs hps
    cases hf : liveSession f <;> by_cases hw : sub32 now wd > 500 <;>
      simp [REPEATER_Process, watchdogExpired, watchdogBranch, switchBranch, EnterStandby,
        restState, hf, hw]
    split_ifs <;> simp

/-- C15, at concrete inputs: a device initialised with byte 0x01 is in
Standby with the flag set, and a device initialised with byte 0x00 and
processed at tick 1440000 was in Idle with the flag clear and is not moved to
Standby. -/
theorem C15_rest_states_agree_witness :
    (run [] (REPEATER_Init 0 (bootState false 1)).1).gPermanentStandby = true ∧
      (run [] (REPEATER_Init 0 (bootState false 0)).1).gPermanentStandby = false ∧
      (REPEATER_Process (FUNCTION_OTHER 0) 1440000
          (run [] (REPEATER_Init 0 (bootState false 0)).1)).1.gRepeaterState
        ≠ REPEATER_STATE_STANDBY :=
  ⟨(C15_rest_states_agree (bootState false 1) 0 []).1 (by decide),
    (C15_rest_states_agree (bootState false 0) 0 []).2.1 (by decide),
    (C15_rest_states_agree (bootState false 0) 0 []).2.2.2 (FUNCTION_OTHER 0) 1440000
      (by decide)⟩

/-! ## C16: what changes the next wake time -/

/-- C16. `REPEATER_WakeFromStandby`, `REPEATER_SetPermanentStandby` and
`REPEATER_ProcessTapCommand` leave `gNextWakeTime` unchanged, and so does
every `REPEATER_Process` step other than the unguarded step in Listen with
the watchdog not expired and dwell at least 5000 ticks: guarded steps,
watchdog recoveries, scheduled wakes, Wake to Morse and Morse to Listen
included. -/
theorem C16_next_wake_frame (s : State) (now : Nat) :
    (REPEATER_WakeFromStandby now s).1.gNextWakeTime = s.gNextWakeTime ∧
      (∀ (b : Bool), (REPEATER_SetPermanentStandby b s).1.gNextWakeTime = s.gNextWakeTime) ∧
      (∀ (t : Nat), (REPEATER_ProcessTapCommand t s).1.gNextWakeTime = s.gNextWakeTime) ∧
      (∀ (f : FUNCTION_t),
        ¬ (s.gRepeaterState = REPEATER_STATE_LISTEN ∧ sub32 now s.gStateTimer ≥ 5000) →
        (REPEATER_Process f now s).1.gNextWakeTime = s.gNextWakeTime) ∧
      (∀ (f : FUNCTION_t),
        liveSession f = true ∨ (s.gRepeaterState ≠ REPEATER_STATE_STANDBY ∧
          sub32 now s.gWatchdogTimer > 500) →
        (REPEATER_Process f now s).1.gNextWakeTime = s.gNextWakeTime) := by
  refine ⟨?_, ?_, ?_, ?_, ?_⟩
  · unfold REPEATER_WakeFromStandby
    split_ifs <;> rfl
  · intro b
    unfold REPEATER_SetPermanentStandby
    simp only
    split_ifs <;> rfl
  · intro t
    unfold REPEATER_ProcessTapCommand
    split_ifs <;> rfl
  · intro f h
    apply process_keeps_next_wake
    rintro ⟨_, _, hs, hd⟩
    exact h ⟨hs, hd⟩
  · intro f h
    apply process_keeps_next_wake
    rintro ⟨hf, hw, hs, _⟩
    rcases h with h | ⟨_, h⟩
    · rw [hf] at h
      exact Bool.false_ne_true h
    · omega

/-- C16, at concrete inputs: the step from Wake to Morse at tick 100 and a
watchdog recovery from Listen at tick 10000 both leave `gNextWakeTime` as it
was. -/
theorem C16_next_wake_frame_witness :
    (REPEATER_Process (FUNCTION_OTHER 0) 100 sampleWake).1.gNextWakeTime
        = sampleWake.gNextWakeTime ∧
      (REPEATER_Process (FUNCTION_OTHER 0) 10000 sampleListen).1.gNextWakeTime
        = sampleListen.gNextWakeTime :=
  ⟨(C16_next_wake_frame sampleWake 100).2.2.2.1 (FUNCTION_OTHER 0) (by decide),
    (C16_next_wake_frame sampleListen 10000).2.2.2.2 (FUNCTION_OTHER 0)
      (Or.inr (by decide))⟩

/-! ## C17: no watchdog in Standby -/

/-- C17. In Standby with `now < gNextWakeTime`, a `REPEATER_Process` step
leaves the whole state unchanged and issues no effect, whatever the age of
`gWatchdogTimer` and whatever `gCurrentFunction` is. -/
theorem C17_standby_no_watchdog (s : State) (f : FUNCTION_t) (now : Nat)
    (hs : s.gRepeaterState = REPEATER_STATE_STANDBY) (hn : now < s.gNextWakeTime) :
    REPEATER_Process f now s = (s, []) := by
  have hge : ¬ now ≥ s.gNextWakeTime := by omega
  cases hf : liveSession f <;>
    simp [REPEATER_Process, watchdogExpired, switchBranch, hf, hs, hge]

/-- C17, at a concrete input: a device initialised into Standby at tick 0 and
processed at tick 1000000, with its watchdog timer a million ticks old, is
left untouched. -/
theorem C17_standby_no_watchdog_witness :
    sub32 1000000 (afterInit false 1 0 []).gWatchdogTimer > 500 ∧
      REPEATER_Process (FUNCTION_OTHER 0) 1000000 (afterInit false 1 0 [])
        = (afterInit false 1 0 [], []) :=
  ⟨by decide,
    C17_standby_no_watchdog (afterInit false 1 0 []) (FUNCTION_OTHER 0) 1000000
      (by decide) (by decide)⟩

/-! ## C18: what the next state depends on -/

/-- C18, as stated, fails in two ways. Two Idle devices that differ only in
`gNextWakeTime` (1440000 and 2000000) and are processed at tick 1440000 end
in Wake and in Idle. Two devices in Wake that differ only in `gWatchdogTimer`
(0 and 900) and are processed at tick 1000 end in Idle and in Morse. -/
theorem C18_counterexample :
    (sampleIdleDue.gRepeaterState
          = { sampleIdleDue with gNextWakeTime := 2000000 }.gRepeaterState ∧
        sub32 1440000 sampleIdleDue.gStateTimer
          = sub32 1440000 { sampleIdleDue with gNextWakeTime := 2000000 }.gStateTimer ∧
        sampleIdleDue.gPermanentStandby
          = { sampleIdleDue with gNextWakeTime := 2000000 }.gPermanentStandby ∧
        liveSession (FUNCTION_OTHER 0) = false ∧
        (REPEATER_Process (FUNCTION_OTHER 0) 1440000 sampleIdleDue).1.gRepeaterState
          = REPEATER_STATE_WAKE ∧
        (REPEATER_Process (FUNCTION_OTHER 0) 1440000
            { sampleIdleDue with gNextWakeTime := 2000000 }).1.gRepeaterState
          = REPEATER_STATE_IDLE) ∧
      (sampleWake.gRepeaterState
          = { sampleWake with gWatchdogTimer := 900 }.gRepeaterState ∧
        sub32 1000 sampleWake.gStateTimer
          = sub32 1000 { sampleWake with gWatchdogTimer := 900 }.gStateTimer ∧
        sampleWake.gPermanentStandby
          = { sampleWake with gWatchdogTimer := 900 }.gPermanentStandby ∧
        (REPEATER_Process (FUNCTION_OTHER 0) 1000 sampleWake).1.gRepeaterState
          = REPEATER_STATE_IDLE ∧
        (REPEATER_Process (FUNCTION_OTHER 0) 1000
            { sampleWake with gWatchdogTimer := 900 }).1.gRepeaterState
          = REPEATER_STATE_MORSE) := by
  decide

/-- C18, amended. Two states that agree on the repeater state, on
`(now - gStateTimer) mod 2^32`, on the flag, on whether the watchdog window
has expired (`(now - gWatchdogTimer) mod 2^32 > 500`) and on whether the wake
is due (`now >= gNextWakeTime`) have the same next repeater state under an
unguarded `REPEATER_Process` step at tick `now`. -/
theorem C18_next_state_function (s1 s2 : State) (f : FUNCTION_t) (now : Nat)
    (ht : f ≠ FUNCTION_TRANSMIT) (hr : f ≠ FUNCTION_RECEIVE)
    (hst : s1.gRepeaterState = s2.gRepeaterState)
    (hdw : sub32 now s1.gStateTimer = sub32 now s2.gStateTimer)
    (hps : s1.gPermanentStandby = s2.gPermanentStandby)
    (hwd : sub32 now s1.gWatchdogTimer > 500 ↔ sub32 now s2.gWatchdogTimer > 500)
    (hnw : now ≥ s1.gNextWakeTime ↔ now ≥ s2.gNextWakeTime) :
    (REPEATER_Process f now s1).1.gRepeaterState
      = (REPEATER_Process f now s2).1.gRepeaterState := by
  have hf := liveSession_false_of_ne f ht hr
  obtain ⟨st1, nw1, stt1, wd1, ps1, tap1, rx1, ee1⟩ := s1
  obtain ⟨st2, nw2, stt2, wd2, ps2, tap2, rx2, ee2⟩ := s2
  simp only at hst hdw hps hwd hnw
  subst hst hps
  have hw2 : sub32 now wd2 > 500 ↔ sub32 now wd1 > 500 := hwd.symm
  have hn2 : nw2 ≤ now ↔ nw1 ≤ now := hnw.symm
  by_cases hw1 : sub32 now wd1 > 500 <;> by_cases hn1 : nw1 ≤ now <;>
    cases st1 <;> cases ps1 <;>
    simp [REPEATER_Process, watchdogExpired, watchdogBranch, switchBranch, EnterStandby,
      restState, hf, hw1, hw2, hn1, hn2, hdw] <;>
    split_ifs <;> rfl

/-- C18 amended, at a concrete input: two devices in Wake with the same
timers that differ only in the stored tap command both go to Morse at tick
100. -/
theorem C18_next_state_function_witness :
    (REPEATER_Process (FUNCTION_OTHER 0) 100 sampleWake).1.gRepeaterState
      = (REPEATER_Process (FUNCTION_OTHER 0) 100
          { sampleWake with gTapCommand := 4 }).1.gRepeaterState :=
  C18_next_state_function sampleWake { sampleWake with gTapCommand := 4 } (FUNCTION_OTHER 0)
    100 (by decide) (by decide) (by decide) (by decide) (by decide) (by decide) (by decide)

/-! ## C19: Active is never reached -/

theorem step_assigns_no_active (o : Op) (s : State)
    (h : s.gRepeaterState ≠ REPEATER_STATE_ACTIVE) :
    (step o s).1.gRepeaterState ≠ REPEATER_STATE_ACTIVE := by
  obtain ⟨st, nw, stt, wd, ps, tap, rx, ee⟩ := s
  simp only at h
  cases o with
  | Init now =>
    simp only [step, REPEATER_Init]
    split_ifs <;> simp
  | SetPermanentStandby enable =>
    cases st <;> cases enable <;> simp_all [step, REPEATER_SetPermanentStandby]
  | ProcessTapCommand taps =>
    simp only [step, REPEATER_ProcessTapCommand]
    split_ifs <;> simpa using h
  | WakeFromStandby now =>
    cases st <;> simp_all [step, REPEATER_WakeFromStandby]
  | Process f now =>
    cases st <;> cases ps <;>
      simp [step, REPEATER_Process, watchdogBranch, switchBranch, EnterStandby, restState] <;>
      (try split_ifs) <;> simp_all

/-- C19. The Active state is never reached: no call of a public operation
ends in Active unless it started there, so every run from the initial values
of the statics, and every run from `REPEATER_Init`, stays out of Active. -/
theorem C19_active_unreachable :
    (∀ (o : Op) (s : State),
        (step o s).1.gRepeaterState = REPEATER_STATE_ACTIVE →
        s.gRepeaterState = REPEATER_STATE_ACTIVE) ∧
      (∀ (rxIdle : Bool) (byte : Nat) (ops : List Op),
        (run ops (bootState rxIdle byte)).gRepeaterState ≠ REPEATER_STATE_ACTIVE) ∧
      (∀ (s0 : State) (t0 : Nat) (ops : List Op),
        (run ops (REPEATER_Init t0 s0).1).gRepeaterState ≠ REPEATER_STATE_ACTIVE) := by
  refine ⟨?_, ?_, ?_⟩
  · intro o s h
    by_contra hne
    exact step_assigns_no_active o s hne h
  · intro rxIdle byte ops
    apply run_preserves (fun s => s.gRepeaterState ≠ REPEATER_STATE_ACTIVE)
      step_assigns_no_active
    simp [bootState]
  · intro s0 t0 ops
    apply run_preserves (fun s => s.gRepeaterState ≠ REPEATER_STATE_ACTIVE)
      step_assigns_no_active
    rw [init_state]
    split_ifs <;> simp

end Repeater
